import Mathlib

/-!
Verification development for the Knowledge-Transformer content pipeline.

The definitions below are a shallow embedding of the pipeline core:
the step tracker and retry SQL functions
(`src/supabase/migrations/002_enhanced_error_tracking.sql`), the transcript
fallback chain (`src/lib/transcripts.ts`), the AI provider fallback, batch
fan-out and response parsing (`src/lib/ai.ts`, `src/lib/claude.ts`), the
subsystem error classes (`src/lib/youtube.ts`, `src/lib/transcripts.ts`,
`src/lib/claude.ts`), and the orchestrator routes
(`src/app/api/youtube/process/route.ts`, `src/app/api/youtube/retry/route.ts`).
External calls (YouTube metadata, caption extraction, the Anthropic API,
database reads/writes) are modelled as explicit outcome parameters; the
control flow, emitted side effects and produced values follow the source.
-/

/-- The `processing_step` enum of migration 002. -/
inductive Step where
  | pending
  | fetching_metadata
  | extracting_transcript
  | ai_processing
  | saving_data
  | completed
  | failed
deriving DecidableEq, Repr

/-- Error kinds of `TranscriptError.errorType` in `src/lib/transcripts.ts`. -/
inductive TErrorType where
  | no_captions
  | video_private
  | video_not_found
  | language_unsupported
  | youtube_api_error
  | whisper_failed
  | unknown
deriving DecidableEq, Repr

/-- The `TranscriptError` class: message, `code`, optional `errorType`. -/
structure TranscriptError where
  message : String
  code : String
  errorType : Option TErrorType
deriving DecidableEq, Repr

/-- Method `TranscriptError.canRetry`: membership of `errorType` in
`['youtube_api_error', 'whisper_failed']` (an undefined `errorType` is
coerced to `''`, which is not in the list). -/
def TranscriptError.canRetry (e : TranscriptError) : Bool :=
  match e.errorType with
  | some .youtube_api_error => true
  | some .whisper_failed => true
  | _ => false

/-- Error kinds of `ClaudeAPIError.errorType` in `src/lib/claude.ts`. -/
inductive CErrorType where
  | rate_limit
  | token_limit
  | context_too_long
  | api_key_invalid
  | quota_exceeded
  | timeout
  | unknown
deriving DecidableEq, Repr

/-- The `ClaudeAPIError` class: message, optional code/status, optional kind. -/
structure ClaudeAPIError where
  message : String
  code : Option String
  statusCode : Option Nat
  errorType : Option CErrorType
deriving DecidableEq, Repr

/-- Method `ClaudeAPIError.canRetry`: membership of `errorType` in
`['rate_limit', 'quota_exceeded', 'timeout']`. -/
def ClaudeAPIError.canRetry (e : ClaudeAPIError) : Bool :=
  match e.errorType with
  | some .rate_limit => true
  | some .quota_exceeded => true
  | some .timeout => true
  | _ => false

/-- Error kinds of `YouTubeAPIError.errorType` in `src/lib/youtube.ts`. -/
inductive YErrorType where
  | quota_exceeded
  | video_not_found
  | video_private
  | channel_not_found
  | api_key_invalid
  | unknown
deriving DecidableEq, Repr

/-- The `YouTubeAPIError` class: HTTP code, message, optional kind. -/
structure YouTubeAPIError where
  code : Nat
  message : String
  errorType : Option YErrorType
deriving DecidableEq, Repr

/-- Method `YouTubeAPIError.canRetry`: `this.errorType === 'quota_exceeded'`. -/
def YouTubeAPIError.canRetry (e : YouTubeAPIError) : Bool :=
  match e.errorType with
  | some .quota_exceeded => true
  | _ => false

/-- JSON values, modelling the JSONB payloads and the objects produced by
`JSON.parse` in the response parsers (numbers as rationals). -/
inductive Json where
  | null
  | bool (b : Bool)
  | num (q : Rat)
  | str (s : String)
  | arr (xs : List Json)
  | obj (fields : List (String × Json))
deriving Repr

/-- First value bound to a key in a JSON object field list. -/
def lookupField : List (String × Json) → String → Option Json
  | [], _ => none
  | (k, v) :: rest, key => if k = key then some v else lookupField rest key

/-- Property access `parsed.key` on a parsed JSON value. -/
def Json.get : Json → String → Option Json
  | .obj fields, key => lookupField fields key
  | _, _ => none

/-- JavaScript truthiness of a JSON value. -/
def Json.truthy : Json → Bool
  | .null => false
  | .bool b => b
  | .num q => if q = 0 then false else true
  | .str s => if s = "" then false else true
  | .arr _ => true
  | .obj _ => true

/-- JavaScript `x || d` applied to an optional field (`undefined` is falsy). -/
def jsOr (v : Option Json) (d : Json) : Json :=
  match v with
  | some j => if j.truthy then j else d
  | none => d

/-- The fields of `SummaryGenerationResult` produced by the summary parser
(processing time, token and cost fields are added by the caller). -/
structure SummaryCore where
  title : Json
  summary : Json
  keyPoints : List Json
  topics : List Json
  confidence : Json
deriving Repr

/-- Function `parsesSummaryResponse` in `src/lib/claude.ts`: `JSON.parse(text.trim())`,
with field defaults on success and the defensive fallback object on a parse
failure. The parse outcome is an explicit parameter. -/
def parsesSummaryResponse (jsonParse : String → Option Json) (text : String) :
    SummaryCore :=
  match jsonParse text.trim with
  | some parsed =>
      { title := jsOr (parsed.get "title") (.str "Summary")
        summary := jsOr (parsed.get "summary") (.str "")
        keyPoints := match parsed.get "keyPoints" with
                     | some (.arr xs) => xs
                     | _ => []
        topics := match parsed.get "topics" with
                  | some (.arr xs) => xs
                  | _ => []
        confidence := match parsed.get "confidence" with
                      | some (.num q) => .num q
                      | _ => .num (8 / 10) }
  | none =>
      { title := .str "Summary"
        summary := .str text
        keyPoints := []
        topics := []
        confidence := .num (1 / 2) }

/-- The fields of `TopicExtractionResult` produced by the topics parser. -/
structure TopicsCore where
  topics : List Json
  relationships : List Json
deriving Repr

/-- Function `parseTopicsResponse` in `src/lib/claude.ts`. -/
def parseTopicsResponse (jsonParse : String → Option Json) (text : String) :
    TopicsCore :=
  match jsonParse text.trim with
  | some parsed =>
      { topics := match parsed.get "topics" with
                  | some (.arr xs) => xs
                  | _ => []
        relationships := match parsed.get "relationships" with
                         | some (.arr xs) => xs
                         | _ => [] }
  | none => { topics := [], relationships := [] }

/-- Filler words removed by `cleanTranscript`. -/
def fillerWords : List String := ["um", "uh", "ah", "mm"]

/-- Adjacent duplicate-word removal (the case-insensitive backreference
regex of `cleanTranscript`), at word granularity. -/
def dedupAdjacent : List String → List String
  | [] => []
  | [w] => [w]
  | w1 :: w2 :: rest =>
      if w1.toLower = w2.toLower then dedupAdjacent (w1 :: rest)
      else w1 :: dedupAdjacent (w2 :: rest)
termination_by ws => ws.length

/-- Sentence-initial capitalization (the `(^|\. )([a-z])` replacement of
`cleanTranscript`), applied to a character list that follows `". "`
or the start of the string. -/
def capGo : List Char → List Char
  | [] => []
  | '.' :: ' ' :: c :: rest => '.' :: ' ' :: c.toUpper :: capGo rest
  | c :: rest => c :: capGo rest

/-- Capitalize the first character and every character following `". "`. -/
def capitalizeSentences (s : String) : String :=
  match s.toList with
  | [] => ""
  | c :: rest => String.mk (c.toUpper :: capGo rest)

/-- Function `cleanTranscript` in `src/lib/transcripts.ts`: whitespace collapse,
filler-word removal, adjacent duplicate-word removal and sentence-initial
capitalization.  The regex chain of the source is modelled at word
granularity: split on spaces, drop empty tokens (whitespace collapse) and
filler words, remove immediately adjacent duplicates, rejoin, capitalize. -/
def cleanTranscript (text : String) : String :=
  let ws := (text.splitOn " ").filter
    (fun w => w ≠ "" && !(fillerWords.contains w.toLower))
  capitalizeSentences (String.intercalate " " (dedupAdjacent ws))

/-- Output of the caption-extraction primary path (`extractYouTubeTranscript`)
and of the Whisper fallback: segments as (start, end, text), raw text and
language. -/
structure RawTranscript where
  segments : List (Rat × Rat × String)
  rawText : String
  language : String
deriving DecidableEq, Repr

/-- Output of `getTranscript`: the raw transcript plus cleaned text and the
origin tag (`'auto'` or `'whisper'`). -/
structure TranscriptResult where
  segments : List (Rat × Rat × String)
  rawText : String
  processedText : String
  transcriptType : String
  language : String
deriving DecidableEq, Repr

/-- The error unconditionally raised by the unimplemented `extractWithWhisper`
(`throw new TranscriptError('Whisper transcription not yet implemented',
'WHISPER_NOT_IMPLEMENTED')`, `errorType` left undefined). -/
def whisperError : TranscriptError :=
  { message := "Whisper transcription not yet implemented"
    code := "WHISPER_NOT_IMPLEMENTED"
    errorType := none }

/-- Function `extractWithWhisper` in `src/lib/transcripts.ts`: always fails. -/
def extractWithWhisper : Except TranscriptError RawTranscript :=
  .error whisperError

/-- The aggregate message built by `getTranscript` when both paths fail. -/
def aggregateMsg (videoId ytMsg wMsg : String) : String :=
  "All transcript extraction methods failed for video " ++ videoId ++
    ". YouTube error: " ++ ytMsg ++ ". Whisper error: " ++ wMsg

/-- Function `getTranscript` in `src/lib/transcripts.ts`: try the YouTube caption path
(outcome passed as the `primary` parameter), fall back to
`extractWithWhisper`, and when both fail raise one aggregate
`TranscriptError` carrying the primary path's `errorType` (defaulting to
`unknown`) and both underlying messages. -/
def getTranscript (videoId : String)
    (primary : Except TranscriptError RawTranscript) :
    Except TranscriptError TranscriptResult :=
  match primary with
  | .ok r =>
      .ok { segments := r.segments, rawText := r.rawText
            processedText := cleanTranscript r.rawText
            transcriptType := "auto", language := r.language }
  | .error youtubeError =>
      match extractWithWhisper with
      | .ok w =>
          .ok { segments := w.segments, rawText := w.rawText
                processedText := cleanTranscript w.rawText
                transcriptType := "whisper", language := w.language }
      | .error whisperErr =>
          .error { message := aggregateMsg videoId youtubeError.message
                     whisperErr.message
                   code := "ALL_METHODS_FAILED"
                   errorType := some (youtubeError.errorType.getD .unknown) }

/-- Predicate: `needle` occurs as a contiguous substring of `haystack`. -/
def strContains (haystack needle : String) : Prop :=
  ∃ a b, haystack = a ++ (needle ++ b)

/-- The `AIProcessingError` class of `src/lib/ai.ts`: message plus the name of
the provider the failure is attributed to. -/
structure AIProcessingError where
  message : String
  provider : String
deriving DecidableEq, Repr

/-- The provider order built by `generateSummary`/`extractTopics`:
`preferredProvider === 'claude' ? ['claude', 'grok'] : ['grok', 'claude']`. -/
def providerOrder (preferred : String) : List String :=
  if preferred = "claude" then ["claude", "grok"] else ["grok", "claude"]

/-- The `switch (provider)` body of the fallback loop: the Claude call's
outcome is a parameter, the Grok branch is unimplemented and always throws,
and unknown names throw. -/
def attemptProvider {R : Type} (claudeCall : Except String R) (p : String) :
    Except String R :=
  if p = "claude" then claudeCall
  else if p = "grok" then .error "Grok provider not yet implemented"
  else .error ("Unknown AI provider: " ++ p)

/-- The `for (const provider of providers)` loop of `src/lib/ai.ts`: return
the first success; on failure, if the current provider equals the last
element of the full list, raise `AIProcessingError` with the current
provider's message and name, else continue; after an empty loop raise
`'No AI providers available'` attributed to `'none'`. -/
def providerFallbackGo {R : Type} (attempt : String → Except String R)
    (last : Option String) : List String → Except AIProcessingError R
  | [] => .error { message := "No AI providers available", provider := "none" }
  | p :: rest =>
      match attempt p with
      | .ok r => .ok r
      | .error m =>
          if last = some p then
            .error { message := "All AI providers failed. Last error: " ++ m
                     provider := p }
          else providerFallbackGo attempt last rest

/-- Run the provider loop over a provider list. -/
def providerFallback {R : Type} (attempt : String → Except String R)
    (providers : List String) : Except AIProcessingError R :=
  providerFallbackGo attempt providers.getLast? providers

/-- Function `generateSummary` in `src/lib/ai.ts` (the provider-fallback wrapper):
the Claude provider's outcome is the `claudeCall` parameter. -/
def generateSummary {R : Type} (claudeCall : Except String R)
    (preferred : String) : Except AIProcessingError R :=
  providerFallback (attemptProvider claudeCall) (providerOrder preferred)

/-- Function `extractTopics` in `src/lib/ai.ts` (the provider-fallback wrapper). -/
def extractTopics {R : Type} (claudeCall : Except String R)
    (preferred : String) : Except AIProcessingError R :=
  providerFallback (attemptProvider claudeCall) (providerOrder preferred)

/-- A `content_items` row as touched by migration 002: current step, step
and error payloads, retry bookkeeping. -/
structure UnitState where
  current_step : Step
  step_details : Json
  error_details : Json
  retry_count : Nat
  can_retry : Bool
deriving Repr

/-- The SQL function `update_processing_step`: sets `current_step`, replaces
`step_details`, and overwrites `error_details` with `error_info` only when
the new step is `failed`. -/
def update_processing_step (st : UnitState) (new_step : Step) (details : Json)
    (error_info : Json) : UnitState :=
  { st with
    current_step := new_step
    step_details := details
    error_details := if new_step = .failed then error_info
                     else st.error_details }

/-- The SQL function `increment_retry_count`: adds one to `retry_count`,
recomputes `can_retry` from the incremented value, resets `current_step`
to `pending`, and returns whether the new count is still below
`max_retries`. -/
def increment_retry_count (st : UnitState) (max_retries : Nat) :
    UnitState × Bool :=
  ({ st with
     retry_count := st.retry_count + 1
     can_retry := decide (st.retry_count + 1 < max_retries)
     current_step := .pending },
   decide (st.retry_count + 1 < max_retries))

/-- Outcome of one call to the retry route. -/
inductive RetryOutcome where
  | exceededMaxAttempts
  | maxRetriesReached
  | reprocessed
deriving DecidableEq, Repr

/-- Response envelope of an awaited supabase `rpc` call: the function's
return value in `data` plus an optional error.  The retry route binds the
whole envelope, not its `data` field, to its `canRetry` variable. -/
structure RpcEnvelope where
  data : Bool
  error : Option String
deriving DecidableEq, Repr

/-- JavaScript truthiness of the response envelope: it is an object, so it
is always truthy regardless of the boolean inside. -/
def RpcEnvelope.truthy (_ : RpcEnvelope) : Bool := true

/-- The POST handler of `src/app/api/youtube/retry/route.ts`, for a unit
that exists: reject when the stored `can_retry` is false; otherwise call
`increment_retry_count(·, 3)` and bind the un-destructured rpc response
envelope to `canRetry`; the subsequent `if (!canRetry)` tests the
envelope's truthiness — an object, always truthy — so its
maximum-retries rejection never fires; then reset `current_step` to
`pending`, clear `error_details`, and trigger reprocessing through the
process endpoint. -/
def retryRoute (u : UnitState) : UnitState × RetryOutcome :=
  if u.can_retry then
    let p := increment_retry_count u 3
    let canRetry : RpcEnvelope := { data := p.2, error := none }
    if canRetry.truthy then
      ({ p.1 with current_step := .pending, error_details := .obj [] },
       .reprocessed)
    else (p.1, .maxRetriesReached)
  else (u, .exceededMaxAttempts)

/-- Expression `options.maxConcurrent || 3` of `batchAnalyzeContent` (`0` and absence
are both falsy in JavaScript). -/
def getMaxConcurrent (o : Option Nat) : Nat :=
  match o with
  | some n => if n = 0 then 3 else n
  | none => 3

/-- The chunking loop `for (let i = 0; i < contents.length; i += k)` taking
`slice(i, i + k)` each round, with the list length as fuel (the loop index
advances by `k ≥ 1` per iteration). -/
def chunkAux {α : Type} : Nat → List α → Nat → List (List α)
  | 0, _, _ => []
  | _, [], _ => []
  | fuel + 1, x :: xs, k => (x :: xs).take k :: chunkAux fuel ((x :: xs).drop k) k

/-- Split a list into consecutive chunks of size `k`. -/
def chunkList {α : Type} (xs : List α) (k : Nat) : List (List α) :=
  chunkAux xs.length xs k

/-- Observable batch events: running one chunk (all of its invocations
settled together by `Promise.all`) and the inter-chunk delay. -/
inductive BatchEv where
  | chunkRun (size : Nat)
  | interChunkDelay
deriving DecidableEq, Repr

/-- The event sequence of the chunk loop: the 1-second delay is inserted
exactly when items remain after the current chunk
(`if (i + maxConcurrent < contents.length)`), so after every chunk but the
last. -/
def batchEvents {α : Type} : List (List α) → List BatchEv
  | [] => []
  | [c] => [.chunkRun c.length]
  | c :: c2 :: rest => .chunkRun c.length :: .interChunkDelay :: batchEvents (c2 :: rest)

/-- Function `batchAnalyzeContent` in `src/lib/ai.ts`: chunk the contents by
`maxConcurrent`, run `analyzeContent` (modelled by `f`) on every element of a
chunk concurrently via `Promise.all`, await the whole chunk, push its results
in order, and delay between chunks.  Returns the collected results and the
chunk/delay event sequence. -/
def batchAnalyzeContent {α β : Type} (f : α → β) (contents : List α)
    (maxConcurrent : Option Nat) : List β × List BatchEv :=
  let cs := chunkList contents (getMaxConcurrent maxConcurrent)
  ((cs.map (fun c => c.map f)).flatten, batchEvents cs)

/-- Video metadata as returned by `getVideoDetails`. -/
structure VideoDetails where
  title : String
  description : String
  duration : Nat
  channelTitle : String
deriving DecidableEq, Repr

/-- The part of an `analyzeContent` result that `processVideo` consumes:
summary title, total cost and number of extracted topics. -/
structure Analysis where
  summaryTitle : String
  totalCost : Rat
  topicsCount : Nat
deriving DecidableEq, Repr

/-- The per-video result object returned by `processVideo` /
`processChannelVideo` (status is the source's string value). -/
structure PvResult where
  status : String
  title : String
  estimatedCost : Rat
deriving DecidableEq, Repr

/-- The `errorDetails` object passed to the step tracker on failure:
message, the constant step tag, and `canRetry: true`. -/
structure ErrInfo where
  message : String
  step : String
  canRetry : Bool
deriving DecidableEq, Repr

/-- The `errorDetails` literal built in the catch blocks of
`processVideo`/`processChannelVideo`. -/
def failedInfo (m : String) (tag : String) : ErrInfo :=
  { message := m, step := tag, canRetry := true }

/-- Observable events of one orchestrator run, in program order: the
metadata fetch, the idempotency lookup, database inserts, step-tracker
records (`update_processing_step`, with the error payload that is non-empty
only on `failed`), and the transcript/analysis calls. -/
inductive Ev where
  | fetchMetadata
  | lookupExisting
  | insertSource
  | insertItem
  | record (s : Step) (errorInfo : Option ErrInfo)
  | getTranscriptCall
  | insertTranscript
  | analyzeCall
  | insertSummary
  | insertTopics
deriving DecidableEq, Repr

/-- Outcomes of the external calls and database operations performed by
`processVideo`, passed as an explicit environment. -/
structure ProcessEnv where
  videoDetails : Option VideoDetails
  existingItem : Option String
  sourceInsert : Except String Unit
  itemInsert : Except String String
  primary : Except TranscriptError RawTranscript
  transcriptInsert : Except String Unit
  analysis : Except String Analysis
  summaryInsert : Except String Unit
deriving Repr

/-- Function `processVideo` in `src/app/api/youtube/process/route.ts`.  Returns the
per-video result (or the message of the exception that escapes it) together
with the ordered event trace.  Faithful to the source's ordering: the
metadata fetch and idempotency check come before any insert; the
`fetching_metadata` and `extracting_transcript` steps are recorded after the
content item exists; `getTranscript` is called before the inner
`try` block, so its exception is re-raised without a `failed` record; inside
the `try`, any exception is recorded as `failed` (with step tag
`'ai_processing'` and `canRetry: true`) and then re-thrown. -/
def processVideo (videoId : String) (env : ProcessEnv) :
    Except String PvResult × List Ev :=
  match env.videoDetails with
  | none => (.error ("Video not found: " ++ videoId), [.fetchMetadata])
  | some vd =>
    match env.existingItem with
    | some _ =>
        (.ok { status := "already_exists", title := vd.title,
               estimatedCost := 0 },
         [.fetchMetadata, .lookupExisting])
    | none =>
      match env.sourceInsert with
      | .error m =>
          (.error ("Failed to create content source: " ++ m),
           [.fetchMetadata, .lookupExisting, .insertSource])
      | .ok _ =>
        match env.itemInsert with
        | .error m =>
            (.error ("Failed to create content item: " ++ m),
             [.fetchMetadata, .lookupExisting, .insertSource, .insertItem])
        | .ok _ =>
          match getTranscript videoId env.primary with
          | .error te =>
              (.error te.message,
               [.fetchMetadata, .lookupExisting, .insertSource, .insertItem,
                .record .fetching_metadata none,
                .record .extracting_transcript none,
                .getTranscriptCall])
          | .ok _ =>
            match env.transcriptInsert with
            | .error m =>
                (.error ("Failed to save transcript: " ++ m),
                 [.fetchMetadata, .lookupExisting, .insertSource, .insertItem,
                  .record .fetching_metadata none,
                  .record .extracting_transcript none,
                  .getTranscriptCall, .insertTranscript,
                  .record .failed (some (failedInfo
                    ("Failed to save transcript: " ++ m) "ai_processing"))])
            | .ok _ =>
              match env.analysis with
              | .error m =>
                  (.error m,
                   [.fetchMetadata, .lookupExisting, .insertSource,
                    .insertItem, .record .fetching_metadata none,
                    .record .extracting_transcript none,
                    .getTranscriptCall, .insertTranscript,
                    .record .ai_processing none, .analyzeCall,
                    .record .failed (some (failedInfo m "ai_processing"))])
              | .ok an =>
                match env.summaryInsert with
                | .error m =>
                    (.error ("Failed to save summary: " ++ m),
                     [.fetchMetadata, .lookupExisting, .insertSource,
                      .insertItem, .record .fetching_metadata none,
                      .record .extracting_transcript none,
                      .getTranscriptCall, .insertTranscript,
                      .record .ai_processing none, .analyzeCall,
                      .insertSummary,
                      .record .failed (some (failedInfo
                        ("Failed to save summary: " ++ m) "ai_processing"))])
                | .ok _ =>
                    (.ok { status := "completed", title := vd.title,
                           estimatedCost := an.totalCost },
                     [.fetchMetadata, .lookupExisting, .insertSource,
                      .insertItem, .record .fetching_metadata none,
                      .record .extracting_transcript none,
                      .getTranscriptCall, .insertTranscript,
                      .record .ai_processing none, .analyzeCall,
                      .insertSummary, .record .saving_data none] ++
                     (if an.topicsCount > 0 then
                        [Ev.insertTopics, Ev.record .completed none]
                      else [Ev.record .completed none]))

/-- Environment of `processChannelVideo` (metadata comes with the video
object; its transcript/summary inserts do not check errors). -/
structure ChannelVideoEnv where
  existingItem : Option String
  itemInsert : Except String String
  primary : Except TranscriptError RawTranscript
  analysis : Except String Analysis
deriving Repr

/-- Function `processChannelVideo` in `src/app/api/youtube/process/route.ts`: same
shape as `processVideo` but without the metadata fetch, source creation and
`fetching_metadata` record; its failure record uses the step tag
`'channel_video_processing'`. -/
def processChannelVideo (video : VideoDetails) (videoId : String)
    (env : ChannelVideoEnv) : Except String PvResult × List Ev :=
  match env.existingItem with
  | some _ =>
      (.ok { status := "already_exists", title := video.title,
             estimatedCost := 0 },
       [.lookupExisting])
  | none =>
    match env.itemInsert with
    | .error m =>
        (.error ("Failed to create content item: " ++ m),
         [.lookupExisting, .insertItem])
    | .ok _ =>
      match getTranscript videoId env.primary with
      | .error te =>
          (.error te.message,
           [.lookupExisting, .insertItem,
            .record .extracting_transcript none, .getTranscriptCall])
      | .ok _ =>
        match env.analysis with
        | .error m =>
            (.error m,
             [.lookupExisting, .insertItem,
              .record .extracting_transcript none, .getTranscriptCall,
              .insertTranscript, .record .ai_processing none, .analyzeCall,
              .record .failed (some
                (failedInfo m "channel_video_processing"))])
        | .ok an =>
            (.ok { status := "completed", title := video.title,
                   estimatedCost := an.totalCost },
             [.lookupExisting, .insertItem,
              .record .extracting_transcript none, .getTranscriptCall,
              .insertTranscript, .record .ai_processing none, .analyzeCall,
              .insertSummary, .record .saving_data none,
              .record .completed none])

/-- One reference submitted to the batch entry point, with the validation
outcome of `validateYouTubeURL` resolved (channel references are outside the
modelled scope). -/
inductive UrlSpec where
  | invalid (url errMsg : String)
  | playlist (url : String)
  | video (url videoId : String) (env : ProcessEnv)

/-- The response body assembled by the batch POST handler. -/
structure BatchResult where
  processed : List PvResult
  errors : List (String × String)
  totalEstimatedCost : Rat
deriving Repr

/-- The `for (const url of urls)` loop of the batch POST handler in
`src/app/api/youtube/process/route.ts`: invalid references and playlists
push an error entry; a video reference runs `processVideo`, pushing its
result and accumulating its cost on success, and — because the loop body is
wrapped in `try/catch` — pushing a per-unit error entry with the exception's
message on failure, then continuing with the remaining references. -/
def POSTbatch : List UrlSpec → BatchResult
  | [] => { processed := [], errors := [], totalEstimatedCost := 0 }
  | spec :: rest =>
    let r := POSTbatch rest
    match spec with
    | .invalid url m => { r with errors := (url, m) :: r.errors }
    | .playlist url =>
        { r with errors :=
            (url, "Playlist processing not yet implemented") :: r.errors }
    | .video url videoId env =>
        match (processVideo videoId env).1 with
        | .ok res =>
            { r with processed := res :: r.processed,
                     totalEstimatedCost :=
                       res.estimatedCost + r.totalEstimatedCost }
        | .error m => { r with errors := (url, m) :: r.errors }

/-- Event predicate: a step-tracker record for step `s`. -/
def isRecordOf (s : Step) : Ev → Bool
  | .record s2 _ => decide (s2 = s)
  | _ => false

/-- Event predicate: a step-tracker record for `failed`. -/
def isFailedRecord : Ev → Bool
  | .record .failed _ => true
  | _ => false

/-- Event predicate: the metadata fetch. -/
def isFetchMetadata : Ev → Bool
  | .fetchMetadata => true
  | _ => false

/-- Event predicate: the `getTranscript` call. -/
def isTranscriptCall : Ev → Bool
  | .getTranscriptCall => true
  | _ => false

/-- Event predicate: the `analyzeContent` call. -/
def isAnalyzeCall : Ev → Bool
  | .analyzeCall => true
  | _ => false

/-- Event predicate: the summary insert. -/
def isInsertSummary : Ev → Bool
  | .insertSummary => true
  | _ => false

/-- Relation `evBefore p q tr`: the first event satisfying `p` is strictly followed by
an event satisfying `q`. -/
def evBefore (p q : Ev → Bool) : List Ev → Bool
  | [] => false
  | e :: rest => if p e then rest.any q else evBefore p q rest

/-- Metadata of the sample video used in concrete runs. -/
def vdSample : VideoDetails :=
  { title := "A Video", description := "d", duration := 60,
    channelTitle := "Chan" }

/-- Raw transcript of the sample video. -/
def rawSample : RawTranscript :=
  { segments := [(0, 4, "hello world")], rawText := "hello world",
    language := "en" }

/-- Analysis result of the sample video. -/
def anSample : Analysis :=
  { summaryTitle := "Great Summary", totalCost := 3 / 100, topicsCount := 2 }

/-- Analysis result without topics. -/
def anNoTopics : Analysis :=
  { summaryTitle := "S", totalCost := 1, topicsCount := 0 }

/-- The classified error of the no-captions scenario: the primary caption
path failed and the failure was classified `no_captions`. -/
def noCaptionsError : TranscriptError :=
  { message := "Failed to extract transcript for video v1: no transcript"
    code := "YOUTUBE_TRANSCRIPT_FAILED"
    errorType := some .no_captions }

/-- Environment of scenario B: metadata and database operations succeed, the
caption path fails with `no_captions` (and the Whisper fallback is
unimplemented). -/
def envB : ProcessEnv :=
  { videoDetails := some vdSample
    existingItem := none
    sourceInsert := .ok ()
    itemInsert := .ok "item-1"
    primary := .error noCaptionsError
    transcriptInsert := .ok ()
    analysis := .ok anNoTopics
    summaryInsert := .ok () }

/-- Environment of a fully successful run. -/
def envOK : ProcessEnv :=
  { videoDetails := some vdSample
    existingItem := none
    sourceInsert := .ok ()
    itemInsert := .ok "item-1"
    primary := .ok rawSample
    transcriptInsert := .ok ()
    analysis := .ok anSample
    summaryInsert := .ok () }

/-- Environment of a resubmission: the (source, external_id) lookup finds an
existing content item. -/
def envDup : ProcessEnv :=
  { envOK with existingItem := some "item-0" }

/-- Channel-video environment of a resubmission. -/
def envDupChan : ChannelVideoEnv :=
  { existingItem := some "item-0"
    itemInsert := .ok "item-2"
    primary := envOK.primary
    analysis := envOK.analysis }

/-- A failed unit that has never been retried. -/
def failedUnit : UnitState :=
  { current_step := .failed, step_details := .obj [], error_details := .obj []
    retry_count := 0, can_retry := true }

/-- Claim C10: when parsing the summary response fails, the parser returns
exactly the fallback object with title "Summary", the raw response text as
the summary, empty key points and topics, and confidence 0.5; and when
parsing the topic-extraction response fails, the parser returns exactly
empty topics and relationships — neither parser raises an error. -/
theorem parse_fallbacks (jsonParse : String → Option Json) (text : String)
    (h : jsonParse text.trim = none) :
    parsesSummaryResponse jsonParse text =
      { title := .str "Summary", summary := .str text, keyPoints := [],
        topics := [], confidence := .num (1 / 2) } ∧
    parseTopicsResponse jsonParse text =
      { topics := [], relationships := [] } := by
  unfold parsesSummaryResponse parseTopicsResponse
  rw [h]
  exact ⟨rfl, rfl⟩

/-- Witness for `parse_fallbacks` at a concrete failing parse. -/
theorem parse_fallbacks_witness :
    parsesSummaryResponse (fun _ => none) "not json" =
      { title := .str "Summary", summary := .str "not json", keyPoints := [],
        topics := [], confidence := .num (1 / 2) } ∧
    parseTopicsResponse (fun _ => none) "not json" =
      { topics := [], relationships := [] } :=
  parse_fallbacks (fun _ => none) "not json" rfl

/-- Claim C9, counterexample: the transcript subsystem marks the kinds
`youtube_api_error` (the spec's `provider_error`) and `whisper_failed` (the
spec's `transcription_failed`) as retryable, although neither is
`rate_limit`, `quota_exceeded` or `timeout` — so it is false that every
transcript-subsystem kind is non-retryable. -/
theorem retryable_kinds_counterexample :
    TranscriptError.canRetry
      { message := "x", code := "c", errorType := some .youtube_api_error } =
      true ∧
    TranscriptError.canRetry
      { message := "x", code := "c", errorType := some .whisper_failed } =
      true :=
  ⟨rfl, rfl⟩

/-- Claim C9, amended: the language-model classifier marks a classification
retryable iff its kind is `rate_limit`, `quota_exceeded` or `timeout`; the
metadata classifier iff its kind is `quota_exceeded`; but the transcript
classifier marks exactly `youtube_api_error` and `whisper_failed` (the
spec's `provider_error`/`transcription_failed`) retryable. -/
theorem retryable_kinds_amended :
    (∀ e : ClaudeAPIError, e.canRetry = true ↔
        (e.errorType = some .rate_limit ∨ e.errorType = some .quota_exceeded ∨
         e.errorType = some .timeout)) ∧
    (∀ e : YouTubeAPIError,
        e.canRetry = true ↔ e.errorType = some .quota_exceeded) ∧
    (∀ e : TranscriptError, e.canRetry = true ↔
        (e.errorType = some .youtube_api_error ∨
         e.errorType = some .whisper_failed)) := by
  refine ⟨fun e => ?_, fun e => ?_, fun e => ?_⟩
  · obtain ⟨m, c, s, et⟩ := e
    rcases et with _ | t
    · simp [ClaudeAPIError.canRetry]
    · cases t <;> simp [ClaudeAPIError.canRetry]
  · obtain ⟨c, m, et⟩ := e
    rcases et with _ | t
    · simp [YouTubeAPIError.canRetry]
    · cases t <;> simp [YouTubeAPIError.canRetry]
  · obtain ⟨m, c, et⟩ := e
    rcases et with _ | t
    · simp [TranscriptError.canRetry]
    · cases t <;> simp [TranscriptError.canRetry]

/-- Witness for `retryable_kinds_amended` at concrete classifications. -/
theorem retryable_kinds_amended_witness :
    ClaudeAPIError.canRetry
      { message := "m", code := none, statusCode := some 429,
        errorType := some .rate_limit } = true ∧
    YouTubeAPIError.canRetry
      { code := 403, message := "m", errorType := some .quota_exceeded } =
      true :=
  ⟨(retryable_kinds_amended.1 _).mpr (Or.inl rfl),
   (retryable_kinds_amended.2.1 _).mpr rfl⟩

/-- Claim C8: `update_processing_step` replaces the stored `step_details`
with the new payload unconditionally (no merging with the prior payload),
overwrites `error_details` with the supplied error info exactly when the new
step is `failed` and leaves it unchanged otherwise; the retry bookkeeping
fields are untouched. -/
theorem step_tracker_contract (st : UnitState) (new_step : Step)
    (details error_info : Json) :
    (update_processing_step st new_step details error_info).current_step =
      new_step ∧
    (update_processing_step st new_step details error_info).step_details =
      details ∧
    (update_processing_step st new_step details error_info).error_details =
      (if new_step = .failed then error_info else st.error_details) ∧
    (update_processing_step st new_step details error_info).retry_count =
      st.retry_count ∧
    (update_processing_step st new_step details error_info).can_retry =
      st.can_retry :=
  ⟨rfl, rfl, rfl, rfl, rfl⟩

/-- Claim C4: when the primary caption path fails with classification `t`
and the Whisper fallback also fails, `getTranscript` raises exactly one
aggregate `TranscriptError` whose `errorType` equals the primary path's
classification (not the fallback's) and whose message contains both
underlying messages. -/
theorem transcript_aggregate_error (videoId : String) (e : TranscriptError)
    (t : TErrorType) (he : e.errorType = some t) :
    getTranscript videoId (.error e) =
      .error { message := aggregateMsg videoId e.message whisperError.message,
               code := "ALL_METHODS_FAILED", errorType := some t } ∧
    strContains (aggregateMsg videoId e.message whisperError.message)
      e.message ∧
    strContains (aggregateMsg videoId e.message whisperError.message)
      whisperError.message := by
  refine ⟨?_, ?_, ?_⟩
  · simp [getTranscript, extractWithWhisper, he]
  · exact ⟨"All transcript extraction methods failed for video " ++ videoId ++
        ". YouTube error: ",
      ". Whisper error: " ++ whisperError.message,
      by simp [aggregateMsg, String.append_assoc]⟩
  · exact ⟨"All transcript extraction methods failed for video " ++ videoId ++
        ". YouTube error: " ++ e.message ++ ". Whisper error: ", "",
      by simp [aggregateMsg, String.append_assoc, String.append_empty]⟩

/-- Witness for `transcript_aggregate_error` at the no-captions error. -/
theorem transcript_aggregate_error_witness :
    getTranscript "v1" (.error noCaptionsError) =
      .error { message :=
                 aggregateMsg "v1" noCaptionsError.message
                   whisperError.message,
               code := "ALL_METHODS_FAILED",
               errorType := some .no_captions } :=
  (transcript_aggregate_error "v1" noCaptionsError .no_captions rfl).1

/-- Claim C5: providers are attempted in order starting with the preferred
provider and the first success is returned; when every provider fails, the
raised failure carries the last attempted provider's error message and name;
and on an empty provider list the failure is attributed to
"no providers available". -/
theorem provider_fallback_policy :
    (providerOrder "claude" = ["claude", "grok"] ∧
     providerOrder "grok" = ["grok", "claude"]) ∧
    (∀ (R : Type) (r : R) (preferred : String),
        generateSummary (.ok r) preferred = .ok r ∧
        extractTopics (.ok r) preferred = .ok r) ∧
    (∀ (R : Type) (m : String),
        generateSummary (.error m : Except String R) "claude" =
          .error { message := "All AI providers failed. Last error: " ++
                     "Grok provider not yet implemented",
                   provider := "grok" } ∧
        generateSummary (.error m : Except String R) "grok" =
          .error { message := "All AI providers failed. Last error: " ++ m,
                   provider := "claude" } ∧
        extractTopics (.error m : Except String R) "claude" =
          .error { message := "All AI providers failed. Last error: " ++
                     "Grok provider not yet implemented",
                   provider := "grok" } ∧
        extractTopics (.error m : Except String R) "grok" =
          .error { message := "All AI providers failed. Last error: " ++ m,
                   provider := "claude" }) ∧
    (∀ (R : Type) (attempt : String → Except String R),
        providerFallback attempt [] =
          .error { message := "No AI providers available",
                   provider := "none" }) := by
  refine ⟨⟨rfl, rfl⟩, fun R r preferred => ?_, fun R m => ?_,
    fun R attempt => rfl⟩
  · by_cases h : preferred = "claude" <;>
      simp [generateSummary, extractTopics, providerOrder, providerFallback,
        providerFallbackGo, attemptProvider, h]
  · exact ⟨rfl, rfl, rfl, rfl⟩

/-- Witness for `provider_fallback_policy` at concrete outcomes. -/
theorem provider_fallback_policy_witness :
    generateSummary (.ok (0 : Nat)) "claude" = .ok 0 ∧
    generateSummary (.error "boom" : Except String Nat) "claude" =
      .error { message := "All AI providers failed. Last error: " ++
                 "Grok provider not yet implemented",
               provider := "grok" } ∧
    providerFallback (fun _ => (.error "x" : Except String Nat)) [] =
      .error { message := "No AI providers available", provider := "none" } :=
  ⟨(provider_fallback_policy.2.1 Nat 0 "claude").1,
   (provider_fallback_policy.2.2.1 Nat "boom").1,
   provider_fallback_policy.2.2.2 Nat (fun _ => .error "x")⟩

/-- Claim C3: for a permanently failing unit starting at `retry_count = 0`
with `max_retries` fixed at 3, every retry call entered with
`can_retry = true` increments `retry_count`, recomputes `can_retry`, and
re-runs the pipeline (the route's post-increment check tests the truthiness
of the un-destructured rpc response envelope — always a truthy object — so
it never rejects); after exactly 3 such calls `can_retry` is false, so the
4th call is rejected up front with the explicit maximum-retries signal, and
a retry call entered with `can_retry = false` never re-runs the
pipeline. -/
theorem retry_bound :
    (∀ u : UnitState, u.can_retry = true →
        (retryRoute u).2 = .reprocessed ∧
        (retryRoute u).1.retry_count = u.retry_count + 1 ∧
        (retryRoute u).1.can_retry = decide (u.retry_count + 1 < 3)) ∧
    (∀ u : UnitState, u.retry_count = 0 → u.can_retry = true →
        (retryRoute (retryRoute (retryRoute u).1).1).2 = .reprocessed ∧
        (retryRoute (retryRoute (retryRoute u).1).1).1.retry_count = 3 ∧
        (retryRoute (retryRoute (retryRoute u).1).1).1.can_retry = false ∧
        (retryRoute (retryRoute (retryRoute (retryRoute u).1).1).1).2 =
          .exceededMaxAttempts) ∧
    (∀ u : UnitState, u.can_retry = false →
        retryRoute u = (u, .exceededMaxAttempts)) := by
  refine ⟨fun u h1 => ?_, fun u h1 h2 => ?_, fun u h1 => ?_⟩
  · obtain ⟨cs, sd, ed, rc, cr⟩ := u
    simp only at h1
    subst h1
    exact ⟨rfl, rfl, rfl⟩
  · obtain ⟨cs, sd, ed, rc, cr⟩ := u
    simp only at h1 h2
    subst h1; subst h2
    exact ⟨rfl, rfl, rfl, rfl⟩
  · obtain ⟨cs, sd, ed, rc, cr⟩ := u
    simp only at h1
    subst h1
    rfl

/-- Witness for `retry_bound` at the concrete failed unit. -/
theorem retry_bound_witness :
    (retryRoute failedUnit).2 = RetryOutcome.reprocessed ∧
    (retryRoute (retryRoute (retryRoute failedUnit).1).1).2 =
      RetryOutcome.reprocessed ∧
    (retryRoute (retryRoute (retryRoute (retryRoute failedUnit).1).1).1).2 =
      RetryOutcome.exceededMaxAttempts :=
  ⟨(retry_bound.1 failedUnit rfl).1,
   (retry_bound.2.1 failedUnit rfl rfl).1,
   (retry_bound.2.1 failedUnit rfl rfl).2.2.2⟩

/-- Helper: with a positive chunk size and enough fuel, flattening the
chunks reassembles the original list. -/
theorem chunkAux_flatten {α : Type} :
    ∀ (fuel : Nat) (xs : List α) (k : Nat), xs.length ≤ fuel → 1 ≤ k →
      (chunkAux fuel xs k).flatten = xs := by
  intro fuel
  induction fuel with
  | zero =>
    intro xs k h hk
    cases xs with
    | nil => rfl
    | cons x rest => simp at h
  | succ n ih =>
    intro xs k h hk
    cases xs with
    | nil => rfl
    | cons x rest =>
      have hd : ((x :: rest).drop k).length ≤ n := by
        simp only [List.length_drop, List.length_cons]
        simp only [List.length_cons] at h
        omega
      simp only [chunkAux, List.flatten_cons, ih ((x :: rest).drop k) k hd hk,
        List.take_append_drop]

/-- Claim C7: a batch of 7 items with `maxConcurrent = 3` (the default) is
split into exactly 3 consecutive chunks of sizes 3, 3, 1; chunks run
strictly in sequence with all results kept in input order (chunk k+1 only
after chunk k has settled), and the fixed inter-chunk delay occurs after the
first and second chunks but not after the last. -/
theorem batch_chunking {α β : Type} (f : α → β) (xs : List α)
    (h : xs.length = 7) :
    (chunkList xs 3).map List.length = [3, 3, 1] ∧
    batchEvents (chunkList xs 3) =
      [.chunkRun 3, .interChunkDelay, .chunkRun 3, .interChunkDelay,
       .chunkRun 1] ∧
    (batchAnalyzeContent f xs (some 3)).2 = batchEvents (chunkList xs 3) ∧
    (batchAnalyzeContent f xs (some 3)).1 = xs.map f ∧
    (chunkList xs 3).flatten = xs ∧
    getMaxConcurrent none = 3 := by
  rcases xs with _ | ⟨a, _ | ⟨b, _ | ⟨c, _ | ⟨d, _ | ⟨e, _ | ⟨g, _ | ⟨i,
    _ | ⟨j, tl⟩⟩⟩⟩⟩⟩⟩⟩ <;>
    simp_all [chunkList, chunkAux, batchEvents, batchAnalyzeContent,
      getMaxConcurrent]

/-- Witness for `batch_chunking` on a concrete 7-element batch. -/
theorem batch_chunking_witness :
    (chunkList [1, 2, 3, 4, 5, 6, 7] 3).map List.length = [3, 3, 1] ∧
    batchEvents (chunkList [1, 2, 3, 4, 5, 6, 7] 3) =
      [.chunkRun 3, .interChunkDelay, .chunkRun 3, .interChunkDelay,
       .chunkRun 1] :=
  ⟨(batch_chunking id [1, 2, 3, 4, 5, 6, 7] rfl).1,
   (batch_chunking id [1, 2, 3, 4, 5, 6, 7] rfl).2.1⟩

/-- Claim C2: when the (source, external_id) lookup finds an existing
content item, both orchestrator entry points short-circuit with status
`already_exists` and `estimatedCost = 0`; the returned trace shows that no
step-tracker record is written and no content-unit, transcript or analysis
insert is performed. -/
theorem idempotent_short_circuit :
    (∀ (videoId : String) (env : ProcessEnv) (vd : VideoDetails)
        (itemId : String),
        env.videoDetails = some vd → env.existingItem = some itemId →
        processVideo videoId env =
          (.ok { status := "already_exists", title := vd.title,
                 estimatedCost := 0 },
           [.fetchMetadata, .lookupExisting])) ∧
    (∀ (video : VideoDetails) (videoId : String) (env : ChannelVideoEnv)
        (itemId : String),
        env.existingItem = some itemId →
        processChannelVideo video videoId env =
          (.ok { status := "already_exists", title := video.title,
                 estimatedCost := 0 },
           [.lookupExisting])) := by
  constructor
  · intro videoId env vd itemId h1 h2
    simp [processVideo, h1, h2]
  · intro video videoId env itemId h1
    simp [processChannelVideo, h1]

/-- Witness for `idempotent_short_circuit` on resubmitted references. -/
theorem idempotent_short_circuit_witness :
    processVideo "v1" envDup =
      (.ok { status := "already_exists", title := "A Video",
             estimatedCost := 0 },
       [.fetchMetadata, .lookupExisting]) ∧
    processChannelVideo vdSample "v1" envDupChan =
      (.ok { status := "already_exists", title := "A Video",
             estimatedCost := 0 },
       [.lookupExisting]) :=
  ⟨idempotent_short_circuit.1 "v1" envDup vdSample "item-0" rfl rfl,
   idempotent_short_circuit.2 vdSample "v1" envDupChan "item-0" rfl⟩

/-- Claim C6, counterexample: in a successful run the metadata fetch happens
and the `fetching_metadata` step is recorded, but the record does not
precede the fetch — `processVideo` records `fetching_metadata` only after
`getVideoDetails` has already completed (the record needs the content item's
id, which exists only later), so the persisted step is stale while metadata
fetching is in progress. -/
theorem step_before_work_counterexample :
    (processVideo "v1" envOK).2.any isFetchMetadata = true ∧
    (processVideo "v1" envOK).2.any (isRecordOf .fetching_metadata) = true ∧
    evBefore (isRecordOf .fetching_metadata) isFetchMetadata
      (processVideo "v1" envOK).2 = false :=
  ⟨rfl, rfl, rfl⟩

/-- Claim C6, amended: the `extracting_transcript` and `ai_processing`
transitions are persisted before their work units begin, but
`fetching_metadata` is recorded only after the metadata fetch has completed,
and `saving_data` is recorded only after the transcript and summary rows
have already been written — so the persisted step can lag behind the work
for those two stages. -/
theorem step_before_work_amended :
    (∀ (videoId : String) (env : ProcessEnv) (vd : VideoDetails)
        (itemId : String),
        env.videoDetails = some vd → env.existingItem = none →
        env.sourceInsert = .ok () → env.itemInsert = .ok itemId →
        evBefore (isRecordOf .extracting_transcript) isTranscriptCall
          (processVideo videoId env).2 = true ∧
        evBefore isFetchMetadata (isRecordOf .fetching_metadata)
          (processVideo videoId env).2 = true) ∧
    (∀ (videoId : String) (env : ProcessEnv) (vd : VideoDetails)
        (itemId : String) (rt : RawTranscript),
        env.videoDetails = some vd → env.existingItem = none →
        env.sourceInsert = .ok () → env.itemInsert = .ok itemId →
        env.primary = .ok rt → env.transcriptInsert = .ok () →
        evBefore (isRecordOf .ai_processing) isAnalyzeCall
          (processVideo videoId env).2 = true) ∧
    (∀ (videoId : String) (env : ProcessEnv) (vd : VideoDetails)
        (itemId : String) (rt : RawTranscript) (an : Analysis),
        env.videoDetails = some vd → env.existingItem = none →
        env.sourceInsert = .ok () → env.itemInsert = .ok itemId →
        env.primary = .ok rt → env.transcriptInsert = .ok () →
        env.analysis = .ok an → env.summaryInsert = .ok () →
        evBefore isInsertSummary (isRecordOf .saving_data)
          (processVideo videoId env).2 = true) := by
  refine ⟨fun videoId env vd itemId h1 h2 h3 h4 => ?_,
    fun videoId env vd itemId rt h1 h2 h3 h4 h5 h6 => ?_,
    fun videoId env vd itemId rt an h1 h2 h3 h4 h5 h6 h7 h8 => ?_⟩
  · obtain ⟨f1, f2, f3, f4, f5, f6, f7, f8⟩ := env
    simp only at h1 h2 h3 h4
    subst h1; subst h2; subst h3; subst h4
    rcases f5 with te | rt
    · exact ⟨rfl, rfl⟩
    · rcases f6 with m | u
      · exact ⟨rfl, rfl⟩
      · rcases f7 with m | an
        · exact ⟨rfl, rfl⟩
        · rcases f8 with m | u2
          · exact ⟨rfl, rfl⟩
          · exact ⟨rfl, rfl⟩
  · obtain ⟨f1, f2, f3, f4, f5, f6, f7, f8⟩ := env
    simp only at h1 h2 h3 h4 h5 h6
    subst h1; subst h2; subst h3; subst h4; subst h5; subst h6
    rcases f7 with m | an
    · rfl
    · rcases f8 with m | u2
      · rfl
      · rfl
  · obtain ⟨f1, f2, f3, f4, f5, f6, f7, f8⟩ := env
    simp only at h1 h2 h3 h4 h5 h6 h7 h8
    subst h1; subst h2; subst h3; subst h4; subst h5; subst h6
    subst h7; subst h8
    rfl

/-- Witness for `step_before_work_amended` on the successful run. -/
theorem step_before_work_amended_witness :
    evBefore (isRecordOf .extracting_transcript) isTranscriptCall
      (processVideo "v1" envOK).2 = true ∧
    evBefore (isRecordOf .ai_processing) isAnalyzeCall
      (processVideo "v1" envOK).2 = true ∧
    evBefore isInsertSummary (isRecordOf .saving_data)
      (processVideo "v1" envOK).2 = true :=
  ⟨(step_before_work_amended.1 "v1" envOK vdSample "item-1"
      rfl rfl rfl rfl).1,
   step_before_work_amended.2.1 "v1" envOK vdSample "item-1" rawSample
     rfl rfl rfl rfl rfl rfl,
   step_before_work_amended.2.2 "v1" envOK vdSample "item-1" rawSample
     anSample rfl rfl rfl rfl rfl rfl rfl rfl⟩

/-- Claim C1, counterexample: with captions unavailable and the Whisper
fallback unimplemented (scenario B), the `getTranscript` exception escapes
`processVideo` — the orchestrator result is the propagated error — and the
run's trace contains no `failed` step-tracker record at all, refuting
"caught inside the Orchestrator [and] recorded via the Step Tracker with
step = failed" (`getTranscript` is called before the inner try block). -/
theorem failure_isolation_counterexample :
    (processVideo "v1" envB).1 =
      .error (aggregateMsg "v1" noCaptionsError.message
        whisperError.message) ∧
    (processVideo "v1" envB).2.any isFailedRecord = false :=
  ⟨rfl, rfl⟩

/-- Claim C1, amended: an exception raised by the transcript acquisition
escapes `processVideo` without any `failed` step-tracker record, while an
exception raised by the language-model analysis is recorded with
`step = failed` (message, step tag `ai_processing`, `canRetry = true`) and
then re-thrown from `processVideo`; in both cases the batch entry point's
per-reference `try/catch` converts the exception into a per-unit error
entry and continues with the remaining references, so every reference
yields exactly one processed or error entry and no exception escapes the
batch entry point. -/
theorem failure_isolation_amended :
    (∀ (videoId : String) (env : ProcessEnv) (vd : VideoDetails)
        (itemId : String) (te : TranscriptError),
        env.videoDetails = some vd → env.existingItem = none →
        env.sourceInsert = .ok () → env.itemInsert = .ok itemId →
        env.primary = .error te →
        (processVideo videoId env).1 =
          .error (aggregateMsg videoId te.message whisperError.message) ∧
        (processVideo videoId env).2.any isFailedRecord = false) ∧
    (∀ (videoId : String) (env : ProcessEnv) (vd : VideoDetails)
        (itemId : String) (rt : RawTranscript) (m : String),
        env.videoDetails = some vd → env.existingItem = none →
        env.sourceInsert = .ok () → env.itemInsert = .ok itemId →
        env.primary = .ok rt → env.transcriptInsert = .ok () →
        env.analysis = .error m →
        (processVideo videoId env).1 = .error m ∧
        (processVideo videoId env).2.getLast? =
          some (.record .failed (some (failedInfo m "ai_processing")))) ∧
    (∀ specs : List UrlSpec,
        (POSTbatch specs).processed.length +
          (POSTbatch specs).errors.length = specs.length) ∧
    (∀ (url videoId : String) (env : ProcessEnv) (m : String)
        (rest : List UrlSpec),
        (processVideo videoId env).1 = .error m →
        POSTbatch (.video url videoId env :: rest) =
          { processed := (POSTbatch rest).processed,
            errors := (url, m) :: (POSTbatch rest).errors,
            totalEstimatedCost := (POSTbatch rest).totalEstimatedCost }) := by
  refine ⟨fun videoId env vd itemId te h1 h2 h3 h4 h5 => ?_,
    fun videoId env vd itemId rt m h1 h2 h3 h4 h5 h6 h7 => ?_,
    fun specs => ?_, fun url videoId env m rest h => ?_⟩
  · obtain ⟨f1, f2, f3, f4, f5, f6, f7, f8⟩ := env
    simp only at h1 h2 h3 h4 h5
    subst h1; subst h2; subst h3; subst h4; subst h5
    exact ⟨rfl, rfl⟩
  · obtain ⟨f1, f2, f3, f4, f5, f6, f7, f8⟩ := env
    simp only at h1 h2 h3 h4 h5 h6 h7
    subst h1; subst h2; subst h3; subst h4; subst h5; subst h6; subst h7
    exact ⟨rfl, rfl⟩
  · induction specs with
    | nil => rfl
    | cons spec rest ih =>
      cases spec with
      | invalid url m =>
        simp only [POSTbatch, List.length_cons]
        omega
      | playlist url =>
        simp only [POSTbatch, List.length_cons]
        omega
      | video url videoId env =>
        rcases hp : (processVideo videoId env).1 with m | res <;>
          simp only [POSTbatch, hp, List.length_cons] <;> omega
  · simp only [POSTbatch, h]

/-- Witness for `failure_isolation_amended` at scenario B inside a batch. -/
theorem failure_isolation_witness :
    (processVideo "v1" envB).2.any isFailedRecord = false ∧
    (POSTbatch [.video "u1" "v1" envB, .playlist "u2"]).processed.length +
      (POSTbatch [.video "u1" "v1" envB, .playlist "u2"]).errors.length =
      2 ∧
    POSTbatch [.video "u1" "v1" envB] =
      { processed := [],
        errors := [("u1", aggregateMsg "v1" noCaptionsError.message
          whisperError.message)],
        totalEstimatedCost := 0 } :=
  ⟨(failure_isolation_amended.1 "v1" envB vdSample "item-1" noCaptionsError
      rfl rfl rfl rfl rfl).2,
   failure_isolation_amended.2.2.1 [.video "u1" "v1" envB, .playlist "u2"],
   failure_isolation_amended.2.2.2 "u1" "v1" envB
     (aggregateMsg "v1" noCaptionsError.message whisperError.message) []
     rfl⟩
